import Mathlib

/-!
Verification development for the Mei plan-execution engine
(src/Mei/action/executor.py, src/Mei/action/context.py, src/Mei/core/state.py,
src/Mei/core/events.py, src/Mei/core/task.py, src/Mei/core/config.py).

The Python code is shallowly embedded: mutable objects become records that are
threaded explicitly, wall-clock reads become parameters supplied by an
environment, Python dicts become association lists with first-match semantics,
and raised exceptions become an explicit outcome constructor carrying the
exception message (modelled without the quote characters Python prints).
-/

namespace Mei

/-! ### Python dict operations (first-match association lists) -/

/-- Lookup in a Python dict modelled as an association list (`d.get(k)`). -/
def dictGet {κ α : Type} [DecidableEq κ] (k : κ) : List (κ × α) → Option α
  | [] => none
  | (k1, v) :: rest => if k1 = k then some v else dictGet k rest

/-- Assignment `d[k] = v`: replace the first binding of `k`, else append. -/
def dictInsert {κ α : Type} [DecidableEq κ] (k : κ) (v : α) : List (κ × α) → List (κ × α)
  | [] => [(k, v)]
  | (k1, v1) :: rest => if k1 = k then (k, v) :: rest else (k1, v1) :: dictInsert k v rest

/-- Deletion `del d[k]`: drop the first binding of `k`. -/
def dictErase {κ α : Type} [DecidableEq κ] (k : κ) : List (κ × α) → List (κ × α)
  | [] => []
  | (k1, v1) :: rest => if k1 = k then rest else (k1, v1) :: dictErase k rest

/-! ### Event payload values

Event payloads (`**data` keyword arguments in `emit` calls) are heterogeneous.
Strings, numbers, booleans and None are modelled directly; objects such as a
`Plan`, `Intent` or a parameter dict are modelled opaquely by a tag, since no
claim inspects them. -/

inductive EVal : Type where
  | s : String → EVal
  | num : Nat → EVal
  | b : Bool → EVal
  | null : EVal
  | obj : String → EVal
deriving DecidableEq

/-- A Python dict of keyword-style data. -/
def Data : Type := List (String × EVal)

instance : DecidableEq Data := by
  unfold Data
  infer_instance

/-- How Python renders an optional string inside an f-string (None prints as None). -/
def pyStr : Option String → String
  | some s => s
  | none => "None"

/-- An optional string as an event payload value. -/
def optSVal : Option String → EVal
  | some s => .s s
  | none => .null

/-! ### Core data model (src/Mei/core/task.py, src/Mei/core/config.py) -/

/-- src/Mei/core/task.py, class StepStatus. -/
inductive StepStatus : Type where
  | PENDING
  | RUNNING
  | COMPLETED
  | FAILED
  | SKIPPED
deriving DecidableEq

/-- src/Mei/core/config.py lines 201-206.  The dataclass declares no default
for any field; `mkActionResult` below models its constructor. -/
structure ActionResult where
  success : Bool
  data : Data
  error : Option String
  method_used : String
deriving DecidableEq

/-- src/Mei/core/config.py, class VerifyResult.  The float confidence is
modelled in hundredths. -/
structure VerifyResult where
  verified : Bool
  confidence : Nat
  reason : Option String
deriving DecidableEq

/-- src/Mei/core/config.py lines 222-227.  `found_at` (a datetime) is a
millisecond tick; `ui_element` (Optional[Any]) is opaque. -/
structure ElementReference where
  source : String
  bounding_box : Int × Int × Int × Int
  ui_element : Option String
  found_at : Nat
deriving DecidableEq

/-- Modelled from the spec: `ElementReference.is_stale` is called from
src/Mei/action/context.py line 59 and src/Mei/action/handlers/utility.py
line 256 but is not defined anywhere under src/.  The spec (section 4.3)
describes it as staleness by age or confidence threshold exceeded; the src
dataclass carries no confidence field, so the age criterion is modelled, with
the threshold and the current time passed explicitly. -/
def ElementReference.is_stale (r : ElementReference) (maxAgeMs now : Nat) : Bool :=
  decide (maxAgeMs < now - r.found_at)

/-- src/Mei/core/config.py, class WindowInfo. -/
structure WindowInfo where
  hwnd : Nat
  title : String
  process_name : String
  pid : Nat
  x : Int
  y : Int
  width : Nat
  height : Nat
  is_visible : Bool
  is_minimized : Bool
  is_maximized : Bool
deriving DecidableEq

/-- src/Mei/core/task.py, class Intent (confidence scaled to hundredths). -/
structure Intent where
  action : String
  target : Option String
  parameters : Data
  confidence : Nat
  raw_command : String
deriving DecidableEq

/-- src/Mei/core/task.py, class Step (datetimes as millisecond ticks). -/
structure Step where
  id : String
  action : String
  parameters : Data
  description : String
  status : StepStatus
  result : Option Data
  error : Option String
  started_at : Option Nat
  completed_at : Option Nat
  verification_method : Option String
  verified : Bool
deriving DecidableEq

/-- The dataclass field defaults of Step (the uuid default for id is modelled
as the empty string; no claim inspects it). -/
def defaultStep : Step :=
  { id := "", action := "", parameters := [], description := "",
    status := .PENDING, result := none, error := none,
    started_at := none, completed_at := none,
    verification_method := none, verified := false }

/-- src/Mei/core/task.py, class Plan. -/
structure Plan where
  steps : List Step
  strategy : String
  reasoning : String
  created_at : Nat
deriving DecidableEq

/-! ### Events (src/Mei/core/events.py) -/

/-- src/Mei/core/events.py, class EventType (all variants). -/
inductive EventType : Type where
  | AGENT_STARTED
  | AGENT_STOPPED
  | WAKE_WORD_DETECTED
  | SPEECH_STARTED
  | SPEECH_ENDED
  | COMMAND_RECEIVED
  | SPEECH_RECEIVED
  | TRANSCRIBE_COMPLETED
  | MONITOR_REFRESHED
  | MONITOR_SCREENSHOT
  | REGION_SCREENSHOT
  | WINDOW_CAPTURED
  | SCREENSHOT_COMPARED
  | SCREENSHOT_SAVED
  | VISUAL_ANALYSIS_STARTED
  | VISUAL_ANALYSIS_COMPLETED
  | VISUAL_ELEMENT_FOUND
  | VISUAL_ELEMENT_NOT_FOUND
  | VISUAL_TEXT_EXTRACTED
  | OMNIPARSER_LOADED
  | OMNIPARSER_ERROR
  | OCR_COMPLETED
  | OMNIPARSER_UNLOADED
  | LLM_LOADING
  | LLM_LOADED
  | LLM_UNLOADED
  | INTENT_RECOGNIZED
  | ENTITIES_EXTRACTED
  | PLAN_CREATED
  | PLAN_STEP_STARTED
  | PLAN_STEP_COMPLETED
  | PLAN_STEP_FAILED
  | PLAN_COMPLETED
  | PLAN_FAILED
  | ACTION_STARTED
  | ACTION_COMPLETED
  | ACTION_FAILED
  | WINDOW_CHANGED
  | WINDOW_CLOSED
  | TAB_CLOSED
  | TAB_OPENED
  | APP_LAUNCHED
  | APP_CLOSED
  | MEMORY_STORED
  | MEMORY_RETRIEVED
  | CONFIRMATION_NEEDED
  | CONFIRMATION_RECEIVED
  | ERROR
deriving DecidableEq

/-- src/Mei/core/events.py, class Event.  The `timestamp` and `id` fields are
uuid/now defaults never constrained by a claim and are omitted; `type` is named
`etype` (type is not a usable field name here). -/
structure Event where
  etype : EventType
  source : String
  data : List (String × EVal)
deriving DecidableEq

/-! ### State machine (src/Mei/core/state.py) -/

/-- src/Mei/core/state.py, class AgentState. -/
inductive AgentState : Type where
  | IDLE
  | LISTENING
  | THINKING
  | PLANNING
  | EXECUTING
  | SPEAKING
  | ERROR
  | STOPPED
deriving DecidableEq

/-- The `.name` of an AgentState member, used in transition-event payloads. -/
def AgentState.name : AgentState → String
  | .IDLE => "IDLE"
  | .LISTENING => "LISTENING"
  | .THINKING => "THINKING"
  | .PLANNING => "PLANNING"
  | .EXECUTING => "EXECUTING"
  | .SPEAKING => "SPEAKING"
  | .ERROR => "ERROR"
  | .STOPPED => "STOPPED"

/-- src/Mei/core/state.py lines 48-56: the allowed-transition table.  The dict
has no entry for STOPPED, and `set_state` reads it with
`.get(current, set())`, hence the empty list there. -/
def allowed_transitions : AgentState → List AgentState
  | .IDLE => [.LISTENING, .THINKING, .ERROR, .STOPPED]
  | .LISTENING => [.IDLE, .THINKING, .ERROR]
  | .THINKING => [.IDLE, .PLANNING, .SPEAKING, .ERROR]
  | .PLANNING => [.EXECUTING, .THINKING, .ERROR]
  | .EXECUTING => [.IDLE, .SPEAKING, .THINKING, .ERROR]
  | .SPEAKING => [.IDLE, .LISTENING, .EXECUTING, .ERROR]
  | .ERROR => [.IDLE, .STOPPED]
  | .STOPPED => []

/-- src/Mei/core/state.py, class StateMachine (mutable fields; the lock and
the singleton plumbing have no observable effect in a single-run model). -/
structure StateMachine where
  current_state : AgentState
  last_state : AgentState
  last_transition : Nat
deriving DecidableEq

/-- src/Mei/core/state.py lines 59-87, `set_state`.  Returns the Bool result,
the updated machine, and the transition event emitted on success. -/
def StateMachine.set_state (m : StateMachine) (new_state : AgentState) (now : Nat) :
    Bool × StateMachine × List Event :=
  if new_state = m.current_state then
    (true, m, [])
  else if new_state ≠ .ERROR ∧ new_state ≠ .STOPPED ∧
      new_state ∉ allowed_transitions m.current_state then
    (false, m, [])
  else
    let old_state := m.current_state
    (true,
     { current_state := new_state, last_state := old_state, last_transition := now },
     [{ etype := if new_state = .IDLE then .AGENT_STARTED else .WINDOW_CHANGED,
        source := "state_machine",
        data := [("old_state", .s old_state.name), ("new_state", .s new_state.name)] }])

/-! ### Execution context (src/Mei/action/context.py) -/

/-- src/Mei/action/context.py, class ExecutionContext.  `start_time` is the
clock value at construction; the `variables` dict is named `vars` (variables is
a reserved word here) and its values are modelled as event-payload values. -/
structure ExecutionContext where
  plan : Plan
  intent : Intent
  current_window : Option WindowInfo
  found_elements : List (String × ElementReference)
  step_results : List ActionResult
  start_time : Nat
  current_step_index : Nat
  vars : List (String × EVal)
deriving DecidableEq

/-- src/Mei/action/context.py lines 29-35, `set_current_window`. -/
def ExecutionContext.set_current_window (ctx : ExecutionContext)
    (window : Option WindowInfo) : ExecutionContext :=
  let old_hwnd := Option.map WindowInfo.hwnd ctx.current_window
  let new_hwnd := Option.map WindowInfo.hwnd window
  if old_hwnd ≠ new_hwnd then
    { ctx with found_elements := [], current_window := window }
  else
    { ctx with current_window := window }

/-- Python str.lower, modelled over the character list so that it computes
inside the kernel (ASCII case mapping, as Char.toLower provides). -/
def pyLower (s : String) : String := String.mk (s.data.map Char.toLower)

/-- Python str.strip with no argument: drop whitespace from both ends. -/
def pyStrip (s : String) : String :=
  String.mk (((s.data.dropWhile Char.isWhitespace).reverse.dropWhile
    Char.isWhitespace).reverse)

/-- The name normalization both `store_element` and `get_element` apply:
`name.lower().strip()`. -/
def normalizeName (name : String) : String := pyStrip (pyLower name)

/-- src/Mei/action/context.py lines 50-52, `store_element`. -/
def ExecutionContext.store_element (ctx : ExecutionContext) (name : String)
    (reference : ElementReference) : ExecutionContext :=
  { ctx with found_elements := dictInsert (normalizeName name) reference ctx.found_elements }

/-- src/Mei/action/context.py lines 54-62, `get_element`.  `is_stale` is the
spec-modelled staleness test; its threshold and the current clock are passed
through. -/
def ExecutionContext.get_element (ctx : ExecutionContext) (name : String)
    (maxAgeMs now : Nat) : Option ElementReference × ExecutionContext :=
  let normalized_name := normalizeName name
  match dictGet normalized_name ctx.found_elements with
  | none => (none, ctx)
  | some reference =>
    if reference.is_stale maxAgeMs now then
      (none, { ctx with found_elements := dictErase normalized_name ctx.found_elements })
    else
      (some reference, ctx)

/-- src/Mei/action/context.py lines 70-71, `add_step_result`. -/
def ExecutionContext.add_step_result (ctx : ExecutionContext)
    (result : ActionResult) : ExecutionContext :=
  { ctx with step_results := ctx.step_results ++ [result] }

/-- src/Mei/action/context.py lines 78-79, `set_variable`. -/
def ExecutionContext.set_variable (ctx : ExecutionContext) (key : String)
    (value : EVal) : ExecutionContext :=
  { ctx with vars := dictInsert key value ctx.vars }

/-- src/Mei/action/context.py lines 84-86, `elapsed_time_ms` (wall clock minus
`start_time`; clocks only move forward, modelled by truncated subtraction). -/
def ExecutionContext.elapsed_time_ms (ctx : ExecutionContext) (now : Nat) : Nat :=
  now - ctx.start_time

/-! ### Event bus (src/Mei/core/events.py, class EventBus) -/

/-- src/Mei/core/events.py, class EventBus.  Subscribed handlers are modelled
by opaque identifiers whose behavior is supplied to `emit`. -/
structure EventBus where
  handlers : List (EventType × List Nat)
  global_handlers : List Nat
  event_history : List Event
  max_history : Nat

/-- The dispatch loop of `emit` (lines 168-172): each handler call sits in its
own try/except, so a raising handler is recorded and the loop continues.
Returns the handlers invoked, in order, and the caught error messages. -/
def dispatchLoop (beh : Nat → Event → Except String Unit) (event : Event) :
    List Nat → List Nat × List String
  | [] => ([], [])
  | h :: rest =>
    match beh h event with
    | .ok _ =>
      let r := dispatchLoop beh event rest
      (h :: r.1, r.2)
    | .error e =>
      let r := dispatchLoop beh event rest
      (h :: r.1, e :: r.2)

/-- src/Mei/core/events.py lines 156-172, `emit`: append to the bounded
history, snapshot the type-specific and global handler lists, then dispatch.
Returns the updated bus, the invoked handlers in order, and the error messages
caught from raising handlers. -/
def EventBus.emit (bus : EventBus) (beh : Nat → Event → Except String Unit)
    (event : Event) : EventBus × List Nat × List String :=
  let history := bus.event_history ++ [event]
  let history :=
    if bus.max_history < history.length then
      history.drop (history.length - bus.max_history)
    else history
  let typedHandlers := (dictGet event.etype bus.handlers).getD []
  let r := dispatchLoop beh event (typedHandlers ++ bus.global_handlers)
  ({ bus with event_history := history }, r.1, r.2)

/-! ### Plan executor (src/Mei/action/executor.py)

The executor mutates the step, the context, the state machine and its own
flags, and emits events.  Emitted events, handler-protocol calls
(lookup/validate/execute/verify), logger writes, state-machine requests and
inter-step sleeps are collected into an observable trace. -/

/-- src/Mei/action/executor.py line 21 (0.1 s, in milliseconds). -/
def DEFAULT_STEP_DELAY : Nat := 100

/-- src/Mei/action/executor.py line 22 (seconds; compared against
milliseconds as `MAX_PLAN_DURATION*1000`). -/
def MAX_PLAN_DURATION : Nat := 300

/-- src/Mei/action/executor.py line 24. -/
def LOG_VERIFICATION_FAILURES : Bool := true

/-- src/Mei/action/executor.py line 25. -/
def VERIFY_STEPS : Bool := true

/-- The ActionHandler contract (src/Mei/core/task.py, class ActionHandler) as
seen by the executor.  `execute` and `verify` may raise, modelled by
`Except`, and `execute` may mutate the context it receives. -/
structure HandlerBehavior where
  supports_verification : Bool
  validate : Data → Bool × Option String
  execute : Data → ExecutionContext → Except String (ActionResult × ExecutionContext)
  verify : Data → ExecutionContext → ActionResult → Except String VerifyResult

/-- Everything external to one `execute_plan` run: the handler registry, the
wall clock (`timeAt i` at the timeout check before step `i`, `stepTime i`
during step `i`, `t0` at context creation, `tEnd` in the finally block) and
the id the execution logger generates. -/
structure Env where
  handlers : List (String × HandlerBehavior)
  timeAt : Nat → Nat
  stepTime : Nat → Nat
  t0 : Nat
  tEnd : Nat
  execution_id : String

/-- Which handler-protocol call a trace entry records. -/
inductive CallKind : Type where
  | started
  | lookup
  | validateCall
  | execCall
  | verifyCall
deriving DecidableEq

/-- One observable effect of the executor.  `logExec` records that the
finally block invoked `log_execution` with these arguments (the call is made
regardless of whether it then raises); `setStateCall` records a
state-machine request and its result. -/
inductive TraceItem : Type where
  | ev (e : Event)
  | stepCall (kind : CallKind) (step_index : Nat) (action : String)
  | logExec (success : Bool) (failure_reason : Option String)
  | setStateCall (target : AgentState) (accepted : Bool)
  | sleepCall (ms : Nat)
deriving DecidableEq

/-- Result of `_execute_step`: a normal `(success, error)` return, or an
exception propagating out of the method. -/
inductive StepOutcome : Type where
  | ret (success : Bool) (error : Option String)
  | raised (exn : String)
deriving DecidableEq

/-- Message of the UnboundLocalError raised at executor.py line 270, where the
PLAN_STEP_FAILED emit reads `step_duration_ms` before any assignment to it
(the assignments sit at lines 303 and 320).  Quote characters of the Python
rendering are omitted. -/
def UNBOUND_DURATION_MSG : String :=
  "cannot access local variable step_duration_ms where it is not associated with a value"

/-- Message of the TypeError raised at executor.py line 320 when
`step.completed_at` is still None and the code subtracts datetimes. -/
def NONE_MINUS_DATETIME_MSG : String :=
  "unsupported operand type(s) for -: NoneType and datetime.datetime"

/-- src/Mei/action/executor.py lines 318-335, the except-block of
`_execute_step`.  Line 320 computes `step_duration_ms` from
`step.completed_at` BEFORE the block sets status/error/completed_at; when
`completed_at` is still None that line itself raises a TypeError which
propagates out of `_execute_step`, leaving the step untouched. -/
def stepExceptBlock (e : String) (step : Step) (step_index : Nat) (now : Nat) :
    StepOutcome × Step × List TraceItem :=
  let error_msg := "Exception during execution: " ++ e
  match step.completed_at, step.started_at with
  | some tDone, some tStart =>
    let step_duration_ms := tDone - tStart
    let step1 := { step with status := .FAILED, error := some error_msg,
                             completed_at := some now }
    (.ret false (some error_msg), step1,
     [.ev { etype := .PLAN_STEP_FAILED, source := "Executor",
            data := [("step_index", .num step_index), ("action", .s step.action),
                     ("parameters", .obj ("parameters")), ("error", .s error_msg),
                     ("method_used", .null), ("duration_ms", .num step_duration_ms)] }])
  | _, _ =>
    (.raised NONE_MINUS_DATETIME_MSG, step, [])

/-- src/Mei/action/executor.py lines 192-335, `_execute_step`.  All
`datetime.now()` reads during the step are the single instant `now`.  Two
known slips are embedded as the code has them: the PLAN_STEP_FAILED emit in
the unsuccessful-result branch (line 270) reads the unassigned local
`step_duration_ms`, raising an UnboundLocalError that lands in the
except-block; and the except-block itself (line 320) subtracts a None
`completed_at` when the handler raised, re-raising out of the method. -/
def execute_step (env : Env) (step : Step) (step_index : Nat)
    (ctx : ExecutionContext) (now : Nat) :
    StepOutcome × Step × ExecutionContext × List TraceItem :=
  let ctx := { ctx with current_step_index := step_index }
  let step := { step with status := .RUNNING, started_at := some now }
  let trStart : List TraceItem :=
    [.stepCall .started step_index step.action,
     .ev { etype := .PLAN_STEP_STARTED, source := "Executor",
           data := [("step_index", .num step_index), ("action", .s step.action),
                    ("parameters", .obj ("parameters")),
                    ("description", .s step.description)] }]
  let trLookup : List TraceItem := [.stepCall .lookup step_index step.action]
  match dictGet step.action env.handlers with
  | none =>
    let error_msg := "No handler registered for action: " ++ step.action
    let step1 := { step with status := .FAILED, error := some error_msg,
                             completed_at := some now }
    (.ret false (some error_msg), step1, ctx,
     trStart ++ trLookup ++
     [.ev { etype := .PLAN_STEP_FAILED, source := "Executor",
            data := [("step_index", .num step_index), ("action", .s step.action),
                     ("parameters", .obj ("parameters")), ("error", .s error_msg),
                     ("method_used", .null), ("duration_ms", .num 0)] }])
  | some handler =>
    let trVal : List TraceItem := [.stepCall .validateCall step_index step.action]
    match handler.validate step.parameters with
    | (false, validation_error) =>
      let error_msg := "Validation failed: " ++ pyStr validation_error
      let step1 := { step with status := .FAILED, error := some error_msg,
                               completed_at := some now }
      (.ret false (some error_msg), step1, ctx,
       trStart ++ trLookup ++ trVal ++
       [.ev { etype := .PLAN_STEP_FAILED, source := "Executor",
              data := [("step_index", .num step_index), ("action", .s step.action),
                       ("parameters", .obj ("parameters")), ("error", .s error_msg),
                       ("method_used", .null), ("duration_ms", .num 0)] }])
    | (true, _) =>
      let trExec : List TraceItem := [.stepCall .execCall step_index step.action]
      match handler.execute step.parameters ctx with
      | .error e =>
        -- handler raised before any post-call mutation; completed_at is none
        let r := stepExceptBlock e step step_index now
        (r.1, r.2.1, ctx, trStart ++ trLookup ++ trVal ++ trExec ++ r.2.2)
      | .ok (result, ctx1) =>
        let ctx2 := ctx1.add_step_result result
        let step1 := { step with result := some result.data }
        if result.success = false then
          -- lines 255-272: mark FAILED, then the emit raises UnboundLocalError
          let step2 := { step1 with status := .FAILED, error := result.error,
                                    completed_at := some now }
          let r := stepExceptBlock UNBOUND_DURATION_MSG step2 step_index now
          (r.1, r.2.1, ctx2, trStart ++ trLookup ++ trVal ++ trExec ++ r.2.2)
        else
          -- lines 275-294: advisory verification in its own try/except
          let v :=
            if VERIFY_STEPS && handler.supports_verification then
              match handler.verify step.parameters ctx2 result with
              | .ok verify_result =>
                let stepv := { step1 with verified := verify_result.verified,
                                          verification_method := some ("handler_verify") }
                let ctxv :=
                  if verify_result.verified then ctx2
                  else if LOG_VERIFICATION_FAILURES then
                    ctx2.set_variable ("step_" ++ toString step_index ++ "_verify_failed")
                      (optSVal verify_result.reason)
                  else ctx2
                (stepv, ctxv, some verify_result.confidence,
                 [TraceItem.stepCall .verifyCall step_index step.action])
              | .error _ =>
                (step1, ctx2, none,
                 [TraceItem.stepCall .verifyCall step_index step.action])
            else (step1, ctx2, none, ([] : List TraceItem))
          let step3 := { v.1 with status := .COMPLETED, completed_at := some now }
          -- line 303: completed_at - started_at; both are `now` on this path
          let step_duration_ms := now - now
          (.ret true none, step3, v.2.1,
           trStart ++ trLookup ++ trVal ++ trExec ++ v.2.2.2 ++
           [.ev { etype := .PLAN_STEP_COMPLETED, source := "Executor",
                  data := [("step_index", .num step_index), ("action", .s step.action),
                           ("parameters", .obj ("parameters")),
                           ("method_used", .s result.method_used),
                           ("duration_ms", .num step_duration_ms),
                           ("data", .obj ("data")), ("verified", .b step3.verified),
                           ("verify_confidence",
                            match v.2.2.1 with
                            | some c => .num c
                            | none => .null)] }])

/-- Outcome of the step loop in `execute_plan` (lines 129-143): ran to the
end, broke with a failure reason, or an exception escaped `_execute_step`. -/
inductive LoopOutcome : Type where
  | finished
  | broke (failure_reason : Option String)
  | raised (exn : String)
deriving DecidableEq

/-- src/Mei/action/executor.py lines 129-141, the for-loop of `execute_plan`
over `enumerate(plan.steps)`: timeout check, `_execute_step`, fail-fast break,
inter-step sleep.  Returns the outcome, the updated steps, the final context
and the trace. -/
def run_steps (env : Env) :
    Nat → List Step → ExecutionContext →
    LoopOutcome × List Step × ExecutionContext × List TraceItem
  | _, [], ctx => (.finished, [], ctx, [])
  | step_index, step :: rest, ctx =>
    if MAX_PLAN_DURATION * 1000 < ctx.elapsed_time_ms (env.timeAt step_index) then
      (.broke (some ("Plan Execution timeout")), step :: rest, ctx, [])
    else
      match execute_step env step step_index ctx (env.stepTime step_index) with
      | (.raised e, step1, ctx1, tr) => (.raised e, step1 :: rest, ctx1, tr)
      | (.ret step_success step_error, step1, ctx1, tr) =>
        if step_success then
          let trSleep : List TraceItem :=
            if rest.isEmpty then [] else [.sleepCall DEFAULT_STEP_DELAY]
          let r := run_steps env (step_index + 1) rest ctx1
          (r.1, step1 :: r.2.1, r.2.2.1, tr ++ trSleep ++ r.2.2.2)
        else
          (.broke step_error, step1 :: rest, ctx1, tr)

/-! ### The execution logger (src/Mei/action/debug/logger.py)

`execute_plan`'s finally block starts by calling
`ExecutionLogger.log_execution` (executor.py line 151), so the logger's
behavior decides whether the finally block completes.  The logger lives in
src and is embedded here, including its dict subscripts, which raise
KeyError when the key is absent. -/

/-- src/Mei/action/debug/logger.py line 14. -/
def MAX_LOG_ENTRIES : Nat := 1000

/-- Python subscript `d[k]` on a string-keyed dict: KeyError when absent. -/
def pyGetItem {α : Type} (k : String) (d : List (String × α)) : Except String α :=
  match dictGet k d with
  | some v => .ok v
  | none => .error ("KeyError: " ++ k)

/-- One record of the execution log (logger.py lines 90-137).  The nested
intent/plan/step dumps are built from context fields no claim inspects and
are kept opaque; the fields a later reader of the log could branch on are
explicit. -/
structure ExecutionRecord where
  session_id : String
  success : Bool
  failure_reason : Option String
  duration_ms : Nat
deriving DecidableEq

/-- A value of the logger's `_log_data` dict: the "executions" entry is a
list of records, the "metadata" entry a nested dict. -/
inductive LogVal : Type where
  | list (records : List ExecutionRecord)
  | dict (entries : List (String × EVal))
deriving DecidableEq

/-- Python `len` of a log value (list length or number of dict keys). -/
def LogVal.pyLen : LogVal → Nat
  | .list l => l.length
  | .dict d => d.length

/-- The logger's in-memory `_log_data`. -/
def LogData : Type := List (String × LogVal)

instance : DecidableEq LogData := by
  unfold LogData
  infer_instance

/-- logger.py lines 49-59: the structure `_load_or_create_log` builds when no
valid log file exists — keys "executions" and "metadata" only (timestamps as
opaque strings; note the creation key is total_success while
`log_execution` bumps total_successes, as in the source). -/
def defaultLogData : LogData :=
  [("executions", .list []),
   ("metadata", .dict [("version", .s ("1.0")), ("created_at", .s ("t0")),
                       ("last_updated", .s ("t0")), ("total_executions", .num 0),
                       ("total_success", .num 0), ("total_failures", .num 0)])]

/-- logger.py lines 139-142: `metadata.get(key, 0) + 1` stored back under
`key`; a non-numeric stored value would raise TypeError at the addition. -/
def bumpCounter (key : String) (meta : List (String × EVal)) :
    Except String (List (String × EVal)) :=
  match dictGet key meta with
  | none => .ok (dictInsert key (.num 1) meta)
  | some (.num n) => .ok (dictInsert key (.num (n + 1)) meta)
  | some _ => .error "TypeError: unsupported operand type(s) for +"

/-- logger.py lines 73-86, `_rotate_if_needed`.  Its first line (74)
subscripts `_log_data[execution]` — the structure the logger creates and
accepts (lines 44, 49-59) only ever has the key "executions" — so the
subscript raises KeyError before anything else happens.  When the key did
exist, both branches only touch the on-disk file and leave `_log_data`
unchanged. -/
def rotate_if_needed (log_data : LogData) : Except String Unit :=
  match pyGetItem ("execution") log_data with
  | .error e => .error e
  | .ok v =>
    if v.pyLen < MAX_LOG_ENTRIES then .ok ()
    else .ok ()

/-- logger.py lines 61-71, `_save_log`: stamps metadata (last_updated and
total_executions from len of the executions entry) and writes the file; the
json dump itself is filesystem-only and its IOError is caught inside. -/
def save_log (now : Nat) (log_data : LogData) : Except String LogData :=
  match pyGetItem ("metadata") log_data with
  | .error e => .error e
  | .ok (.list _) => .error "TypeError: list indices must be integers"
  | .ok (.dict meta) =>
    match pyGetItem ("executions") log_data with
    | .error e => .error e
    | .ok ev =>
      .ok (dictInsert "metadata"
        (.dict (dictInsert "total_executions" (.num ev.pyLen)
          (dictInsert "last_updated" (.s (toString now)) meta))) log_data)

/-- src/Mei/action/debug/logger.py, class ExecutionLogger: the in-memory log
dict and the session id (paths and file handles are filesystem-only). -/
structure ExecutionLogger where
  log_data : LogData
  session_id : String

/-- logger.py lines 88-149, `log_execution`.  Builds the record, appends it
to `_log_data[executions]`, bumps a metadata counter, then calls
`_rotate_if_needed` (line 144) — whose `_log_data[execution]` subscript
raises KeyError on every log structure this code creates — so `_save_log`
and the `return execution_id` are never reached.  Returns the mutated logger
(mutations made before a raise persist) together with either the execution
id or the escaping exception.  `execution_id` is the uuid-based id
`_generate_execution_id` produced (external); `now` the wall clock. -/
def ExecutionLogger.log_execution (lg : ExecutionLogger) (execution_id : String)
    (ctx : ExecutionContext) (success : Bool) (failure_reason : Option String)
    (now : Nat) : ExecutionLogger × Except String String :=
  let record : ExecutionRecord :=
    { session_id := lg.session_id, success := success,
      failure_reason := failure_reason,
      duration_ms := ctx.elapsed_time_ms now }
  match pyGetItem ("executions") lg.log_data with
  | .error e => (lg, .error e)
  | .ok (.dict _) => (lg, .error "AttributeError: dict object has no attribute append")
  | .ok (.list records) =>
    let lg1 : ExecutionLogger :=
      { lg with log_data := dictInsert "executions" (.list (records ++ [record])) lg.log_data }
    match pyGetItem ("metadata") lg1.log_data with
    | .error e => (lg1, .error e)
    | .ok (.list _) => (lg1, .error "AttributeError: list object has no attribute get")
    | .ok (.dict meta) =>
      let key := if success then "total_successes" else "total_failures"
      match bumpCounter key meta with
      | .error e => (lg1, .error e)
      | .ok meta2 =>
        let lg2 : ExecutionLogger :=
          { lg1 with log_data := dictInsert "metadata" (.dict meta2) lg1.log_data }
        match rotate_if_needed lg2.log_data with
        | .error e => (lg2, .error e)
        | .ok _ =>
          match save_log now lg2.log_data with
          | .error e => (lg2, .error e)
          | .ok d3 => ({ lg2 with log_data := d3 }, .ok execution_id)

/-- The executor fields `execute_plan` reads and resets: `_is_executing`,
`_current_context`, the state machine, and the logger it calls. -/
structure ExecutorState where
  is_executing : Bool
  current_context : Option ExecutionContext
  machine : StateMachine
  logger : ExecutionLogger

/-- What one `execute_plan` call produces: the outcome (the returned Bool, or
the exception the call raises), the mutated plan, the executor state after
the call, and the trace. -/
structure ExecResult where
  outcome : Except String Bool
  plan : Plan
  state : ExecutorState
  trace : List TraceItem

/-- src/Mei/action/executor.py lines 142-190: the tail of `execute_plan`
after the step loop, taking the loop result `r`.  Covers computing
`plan_success`, the except clause for an escaped exception (lines 145-148),
and the finally block.  The finally block's first statement is the
`log_execution` call (line 151); when that call raises — as it does for
every log structure the in-src logger creates, via the KeyError at
logger.py line 74 — the rest of the finally block is skipped: no
PLAN_COMPLETED/PLAN_FAILED is emitted, set_state(IDLE) is never requested,
`_is_executing`/`_current_context` keep their in-run values, and
`execute_plan` raises instead of returning.  `okExec`/`m1`/`evs1` are the
outcome of the initial set_state(EXECUTING) call. -/
def finishPlan (env : Env) (plan : Plan) (okExec : Bool) (m1 : StateMachine)
    (evs1 : List Event) (lg : ExecutionLogger)
    (r : LoopOutcome × List Step × ExecutionContext × List TraceItem) : ExecResult :=
  let plan1 : Plan := { plan with steps := r.2.1 }
  let failure_reason : Option String :=
    match r.1 with
    | .finished => none
    | .broke reason => reason
    | .raised e => some ("Unexpected exception: " ++ e)
  let trExc : List TraceItem :=
    match r.1 with
    | .raised e => [.ev { etype := .ERROR, source := "Executor",
                          data := [("error", .s e)] }]
    | _ => []
  let plan_success := failure_reason.isNone
  let trPre : List TraceItem :=
    [.setStateCall .EXECUTING okExec] ++ evs1.map .ev ++
    r.2.2.2 ++ trExc ++ [.logExec plan_success failure_reason]
  let lgr := lg.log_execution env.execution_id r.2.2.1 plan_success failure_reason env.tEnd
  match lgr.2 with
  | .error e =>
    { outcome := .error e,
      plan := plan1,
      state := { is_executing := true, current_context := some r.2.2.1,
                 machine := m1, logger := lgr.1 },
      trace := trPre }
  | .ok execution_id =>
    let duration := ExecutionContext.elapsed_time_ms r.2.2.1 env.tEnd
    let trFin : List TraceItem :=
      if plan_success then
        [.ev { etype := .PLAN_COMPLETED, source := "Executor",
               data := [("plan", .obj ("plan")), ("intent", .obj ("intent")),
                        ("execution_id", .s execution_id),
                        ("duration_ms", .num duration)] }]
      else
        [.ev { etype := .PLAN_FAILED, source := "Executor",
               data := [("plan", .obj ("plan")), ("intent", .obj ("intent")),
                        ("execution_id", .s execution_id),
                        ("error", optSVal failure_reason),
                        ("duration_ms", .num duration)] }]
    let s2 := m1.set_state .IDLE env.tEnd
    { outcome := .ok plan_success,
      plan := plan1,
      state := { is_executing := false, current_context := none,
                 machine := s2.2.1, logger := lgr.1 },
      trace := trPre ++ trFin ++
               [.setStateCall .IDLE s2.1] ++ s2.2.2.map .ev }

/-- src/Mei/action/executor.py lines 112-190, `execute_plan`: best-effort
transition to EXECUTING, fresh context, the step loop inside try/except
(`run_steps`), then the except and finally blocks (`finishPlan`). -/
def execute_plan (env : Env) (plan : Plan) (intent : Intent) (es : ExecutorState) :
    ExecResult :=
  let s1 := es.machine.set_state .EXECUTING env.t0
  let context : ExecutionContext :=
    { plan := plan, intent := intent, current_window := none, found_elements := [],
      step_results := [], start_time := env.t0, current_step_index := 0, vars := [] }
  finishPlan env plan s1.1 s1.2.1 s1.2.2 es.logger (run_steps env 0 plan.steps context)

/-- Message of the TypeError the `ActionResult` dataclass constructor raises
when required fields are omitted (config.py lines 201-206 declare no
defaults). -/
def TYPEERROR_ACTIONRESULT : String :=
  "TypeError: ActionResult.__init__ missing required positional arguments"

/-- The `ActionResult(...)` constructor as the dataclass defines it: every
field is required, so a call site omitting any of them raises a TypeError.
Each argument is `some` exactly when the call site passes that keyword. -/
def mkActionResult (success : Option Bool) (data : Option Data)
    (error : Option (Option String)) (method_used : Option String) :
    Except String ActionResult :=
  match success, data, error, method_used with
  | some sv, some dv, some ev, some mv =>
    .ok { success := sv, data := dv, error := ev, method_used := mv }
  | _, _, _, _ => .error TYPEERROR_ACTIONRESULT

/-- src/Mei/action/executor.py lines 338-381, `execute_single_action`: its
three `ActionResult(success=..., error=...)` call sites pass only those two
keywords, so they go through `mkActionResult` with `data` and `method_used`
absent. -/
def execute_single_action (env : Env) (action : String) (parameters : Data) :
    Except String ActionResult :=
  match dictGet action env.handlers with
  | none =>
    mkActionResult (some false) none (some (some ("No handler for action: " ++ action))) none
  | some handler =>
    match handler.validate parameters with
    | (false, err) =>
      mkActionResult (some false) none
        (some (some ("Validation failed: " ++ pyStr err))) none
    | (true, _) =>
      let dummy_intent : Intent :=
        { action := action, target := none, parameters := parameters,
          confidence := 10, raw_command := "direct:" ++ action }
      let dummy_step : Step :=
        { defaultStep with id := "direct_" ++ action, action := action,
                           parameters := parameters,
                           description := "Direct execution of " ++ action }
      let dummy_plan : Plan :=
        { steps := [dummy_step], strategy := "direct_execution",
          reasoning := "Direct action execution", created_at := env.t0 }
      let context : ExecutionContext :=
        { plan := dummy_plan, intent := dummy_intent, current_window := none,
          found_elements := [], step_results := [], start_time := env.t0,
          current_step_index := 0, vars := [] }
      match handler.execute parameters context with
      | .ok (r, _) => .ok r
      | .error e =>
        mkActionResult (some false) none (some (some ("Exception: " ++ e))) none

/-! ### Observation predicates over traces -/

/-- Is a trace entry a PLAN_COMPLETED or PLAN_FAILED event? -/
def isPlanTerminalEv : TraceItem → Bool
  | .ev e =>
    match e.etype with
    | .PLAN_COMPLETED => true
    | .PLAN_FAILED => true
    | _ => false
  | _ => false

/-- Entries `_execute_step` at index `k` may emit: step-protocol calls at
index `k` and step-level events. -/
def stepItemOK (k : Nat) : TraceItem → Bool
  | .ev e =>
    match e.etype with
    | .PLAN_STEP_STARTED => true
    | .PLAN_STEP_COMPLETED => true
    | .PLAN_STEP_FAILED => true
    | _ => false
  | .stepCall _ j _ => j == k
  | _ => false

/-! ### Concrete fixtures used by the evaluation theorems and witnesses -/

/-- A handler that validates, succeeds, and does not verify. -/
def handlerOk : HandlerBehavior :=
  { supports_verification := false,
    validate := fun _ => (true, none),
    execute := fun _ c =>
      .ok ({ success := true, data := [], error := none, method_used := "native" }, c),
    verify := fun _ _ _ => .ok { verified := true, confidence := 50, reason := none } }

/-- A handler whose execute returns success=False for every context. -/
def handlerFail : HandlerBehavior :=
  { handlerOk with
    execute := fun _ c =>
      .ok ({ success := false, data := [], error := some ("element not found"),
             method_used := "native" }, c) }

/-- A handler whose execute raises for every context. -/
def handlerBoom : HandlerBehavior :=
  { handlerOk with execute := fun _ _ => .error ("boom") }

/-- A handler whose validate rejects every parameter dict. -/
def handlerPicky : HandlerBehavior :=
  { handlerOk with validate := fun _ => (false, some ("missing parameter query")) }

/-- Fixture environment: three registered handlers, a clock that never times
out, all stamps at instant 0. -/
def fixtureEnv : Env :=
  { handlers := [("ok", handlerOk), ("fail_step", handlerFail),
                 ("boom", handlerBoom), ("picky", handlerPicky)],
    timeAt := fun _ => 0, stepTime := fun _ => 0, t0 := 0, tEnd := 0,
    execution_id := "exec-1" }

/-- Fixture environment whose clock jumps past the plan budget before the
check of step 1 (step 0 still starts in time). -/
def fixtureEnvLate : Env :=
  { fixtureEnv with timeAt := fun i => if i = 0 then 0 else 301000 }

/-- A pending step invoking the given action with no parameters. -/
def stepFor (a : String) : Step := { defaultStep with action := a }

/-- A plan over the given steps. -/
def planFor (l : List Step) : Plan :=
  { steps := l, strategy := "test_strategy", reasoning := "testing", created_at := 0 }

/-- Fixture intent. -/
def fixtureIntent : Intent :=
  { action := "test", target := none, parameters := [], confidence := 100,
    raw_command := "test plan execution" }

/-- Fixture logger: the freshly created log structure and a session id. -/
def fixtureLogger : ExecutionLogger :=
  { log_data := defaultLogData, session_id := "session_1" }

/-- Fixture executor state: idle machine, not executing, fresh logger. -/
def fixtureExecState : ExecutorState :=
  { is_executing := false, current_context := none,
    machine := { current_state := .IDLE, last_state := .STOPPED, last_transition := 0 },
    logger := fixtureLogger }

/-- The context `execute_plan` would build for a plan under `fixtureEnv`. -/
def fixtureCtx (p : Plan) : ExecutionContext :=
  { plan := p, intent := fixtureIntent, current_window := none, found_elements := [],
    step_results := [], start_time := 0, current_step_index := 0, vars := [] }

/-- Fixture element reference (fresh at tick 0). -/
def fixtureRef : ElementReference :=
  { source := "ui", bounding_box := (0, 0, 1, 1), ui_element := none, found_at := 0 }

/-- A second fixture reference, found later. -/
def fixtureRef2 : ElementReference := { fixtureRef with found_at := 9 }

/-- Fixture window 1. -/
def fixtureWindow1 : WindowInfo :=
  { hwnd := 1, title := "a", process_name := "p", pid := 4, x := 0, y := 0,
    width := 10, height := 10, is_visible := true, is_minimized := false,
    is_maximized := false }

/-- Fixture window 2: a different window identity. -/
def fixtureWindow2 : WindowInfo := { fixtureWindow1 with hwnd := 2, title := "b" }

/-- Fixture context looking at window 1 with one cached element. -/
def fixtureCtxWindow : ExecutionContext :=
  { fixtureCtx (planFor []) with current_window := some fixtureWindow1,
                                 found_elements := [("save", fixtureRef)] }

/-- Fixture context holding one cached element under a normalized key. -/
def fixtureCtxStale : ExecutionContext :=
  { fixtureCtx (planFor []) with found_elements := [("save button", fixtureRef)] }

/-- Fixture context with an empty element cache. -/
def fixtureCtxEmpty : ExecutionContext := fixtureCtx (planFor [])

/-! ### Lemmas about the dict operations -/

theorem dictGet_insert_self {κ α : Type} [DecidableEq κ] (k : κ) (v : α) :
    ∀ l : List (κ × α), dictGet k (dictInsert k v l) = some v := by
  intro l
  induction l with
  | nil => simp [dictGet, dictInsert]
  | cons p rest ih =>
    obtain ⟨k1, v1⟩ := p
    by_cases h : k1 = k
    · simp [dictGet, dictInsert, h]
    · simp [dictGet, dictInsert, h, ih]

theorem dictInsert_insert_self {κ α : Type} [DecidableEq κ] (k : κ) (v1 v2 : α) :
    ∀ l : List (κ × α), dictInsert k v2 (dictInsert k v1 l) = dictInsert k v2 l := by
  intro l
  induction l with
  | nil => simp [dictInsert]
  | cons p rest ih =>
    obtain ⟨k1, w⟩ := p
    by_cases h : k1 = k
    · simp [dictInsert, h]
    · simp [dictInsert, h, ih]

theorem dictGet_eq_none_of_not_mem {κ α : Type} [DecidableEq κ] (k : κ) :
    ∀ l : List (κ × α), k ∉ l.map Prod.fst → dictGet k l = none := by
  intro l
  induction l with
  | nil => intro _; simp [dictGet]
  | cons p rest ih =>
    obtain ⟨k1, v1⟩ := p
    intro hk
    simp only [List.map_cons, List.mem_cons] at hk
    push_neg at hk
    have h1 : k1 ≠ k := fun h => hk.1 h.symm
    simp [dictGet, h1, ih hk.2]

theorem dictGet_erase_self_of_nodup {κ α : Type} [DecidableEq κ] (k : κ) :
    ∀ l : List (κ × α), (l.map Prod.fst).Nodup → dictGet k (dictErase k l) = none := by
  intro l
  induction l with
  | nil => intro _; simp [dictErase, dictGet]
  | cons p rest ih =>
    obtain ⟨k1, v1⟩ := p
    intro hnd
    simp only [List.map_cons, List.nodup_cons] at hnd
    by_cases h : k1 = k
    · subst h
      simp only [dictErase, if_pos rfl]
      exact dictGet_eq_none_of_not_mem k1 rest hnd.1
    · simp [dictErase, h, dictGet, ih hnd.2]

/-! ### Claims about the state machine and the event bus -/

/-- Claim C6: when the current state is IDLE, `set_state(EXECUTING)` returns
false and leaves the current state IDLE (EXECUTING is not in the IDLE row of
the transition table); and from every state, `set_state(ERROR)` returns true
and the current state is ERROR afterwards. -/
theorem c6_set_state_guard (m : StateMachine) (now : Nat) :
    (m.current_state = .IDLE →
      (m.set_state .EXECUTING now).1 = false ∧
      (m.set_state .EXECUTING now).2.1.current_state = .IDLE) ∧
    ((m.set_state .ERROR now).1 = true ∧
     (m.set_state .ERROR now).2.1.current_state = .ERROR) := by
  constructor
  · intro h
    unfold StateMachine.set_state
    rw [h]
    simp only [allowed_transitions]
    refine ⟨by simp, ?_⟩
    simp
    exact h
  · cases hm : m.current_state <;>
      simp [StateMachine.set_state, hm]

/-- Witness for C6 at a concrete machine sitting in IDLE. -/
theorem c6_set_state_guard_witness :
    ((StateMachine.set_state
        { current_state := .IDLE, last_state := .STOPPED, last_transition := 0 }
        .EXECUTING 0).1 = false ∧
     (StateMachine.set_state
        { current_state := .IDLE, last_state := .STOPPED, last_transition := 0 }
        .EXECUTING 0).2.1.current_state = .IDLE) ∧
    ((StateMachine.set_state
        { current_state := .IDLE, last_state := .STOPPED, last_transition := 0 }
        .ERROR 0).1 = true ∧
     (StateMachine.set_state
        { current_state := .IDLE, last_state := .STOPPED, last_transition := 0 }
        .ERROR 0).2.1.current_state = .ERROR) :=
  ⟨(c6_set_state_guard
      { current_state := .IDLE, last_state := .STOPPED, last_transition := 0 } 0).1 rfl,
   (c6_set_state_guard
      { current_state := .IDLE, last_state := .STOPPED, last_transition := 0 } 0).2⟩

theorem dispatchLoop_invokes_all (beh : Nat → Event → Except String Unit)
    (event : Event) : ∀ l, (dispatchLoop beh event l).1 = l := by
  intro l
  induction l with
  | nil => rfl
  | cons h rest ih =>
    cases hb : beh h event <;> simp [dispatchLoop, hb, ih]

/-- Claim C8: whatever the subscribed handlers do — including raising — `emit`
invokes every handler in the dispatch list (type-specific then global, in
order); each call sits in its own try/except, so a raising handler never
aborts dispatch and `emit` returns normally for every behavior. -/
theorem c8_emit_dispatches_all (bus : EventBus)
    (beh : Nat → Event → Except String Unit) (event : Event) :
    (bus.emit beh event).2.1
      = (dictGet event.etype bus.handlers).getD [] ++ bus.global_handlers := by
  unfold EventBus.emit
  simp [dispatchLoop_invokes_all]

/-! ### Claims about the execution context -/

/-- Claim C9: `set_current_window` with a window whose hwnd differs from the
current one clears `found_elements` entirely; with an unchanged hwnd it leaves
the element cache and the other context fields (step results, variables,
start time) untouched. -/
theorem c9_window_identity (ctx : ExecutionContext) (w1 w2 : WindowInfo)
    (hw : ctx.current_window = some w1) :
    (w2.hwnd ≠ w1.hwnd →
      (ctx.set_current_window (some w2)).found_elements = []) ∧
    (w2.hwnd = w1.hwnd →
      (ctx.set_current_window (some w2)).found_elements = ctx.found_elements ∧
      (ctx.set_current_window (some w2)).step_results = ctx.step_results ∧
      (ctx.set_current_window (some w2)).vars = ctx.vars ∧
      (ctx.set_current_window (some w2)).start_time = ctx.start_time) := by
  unfold ExecutionContext.set_current_window
  rw [hw]
  constructor
  · intro hne
    have hcond : ¬ (w1.hwnd = w2.hwnd) := fun hc => hne hc.symm
    simp [hcond]
  · intro heq
    simp [heq]

/-- Witness for C9: a context looking at window 1, cache with one entry. -/
theorem c9_window_identity_witness :
    (fixtureCtxWindow.set_current_window (some fixtureWindow2)).found_elements = [] ∧
    (fixtureCtxWindow.set_current_window (some fixtureWindow1)).found_elements
      = fixtureCtxWindow.found_elements :=
  ⟨(c9_window_identity fixtureCtxWindow fixtureWindow1 fixtureWindow2 rfl).1 (by decide),
   ((c9_window_identity fixtureCtxWindow fixtureWindow1 fixtureWindow1 rfl).2 rfl).1⟩

/-- Claim C10: `store_element` keys the cache by the lowercased, stripped
name, so storing under one name and then under any name with the same
normalization overwrites the same single entry: the cache equals what a
single store under the second name would have produced. -/
theorem c10_store_normalized_key (ctx : ExecutionContext) (n1 n2 : String)
    (r1 r2 : ElementReference) (h : normalizeName n1 = normalizeName n2) :
    ((ctx.store_element n1 r1).store_element n2 r2).found_elements
      = (ctx.store_element n2 r2).found_elements ∧
    dictGet (normalizeName n1)
      ((ctx.store_element n1 r1).store_element n2 r2).found_elements = some r2 := by
  unfold ExecutionContext.store_element
  rw [h]
  exact ⟨dictInsert_insert_self _ r1 r2 _,
         by rw [dictInsert_insert_self _ r1 r2 _]; exact dictGet_insert_self _ r2 _⟩

/-- Witness for C10: two names differing only in case and surrounding
whitespace hit the same cache entry. -/
theorem c10_store_normalized_key_witness :
    ((fixtureCtxEmpty.store_element ("Save Button") fixtureRef).store_element
        "  save button " fixtureRef2).found_elements
      = (fixtureCtxEmpty.store_element ("  save button ") fixtureRef2).found_elements :=
  (c10_store_normalized_key fixtureCtxEmpty ("Save Button") "  save button "
    fixtureRef fixtureRef2 (by decide)).1

/-- Claim C2: if the cache holds a reference under the (normalized) name and
that reference is stale, `get_element` returns none and evicts the entry, and
a repeated call returns none again without changing the context; with the
spec-modelled `is_stale` every operation involved is total, so no call
raises.  The nodup hypothesis is the Python dict invariant (unique keys). -/
theorem c2_stale_eviction (ctx : ExecutionContext) (name : String)
    (ref : ElementReference) (maxAgeMs now : Nat)
    (hnd : (ctx.found_elements.map Prod.fst).Nodup)
    (hmem : dictGet (normalizeName name) ctx.found_elements = some ref)
    (hstale : ref.is_stale maxAgeMs now = true) :
    (ctx.get_element name maxAgeMs now).1 = none ∧
    dictGet (normalizeName name)
      ((ctx.get_element name maxAgeMs now).2.found_elements) = none ∧
    ((ctx.get_element name maxAgeMs now).2.get_element name maxAgeMs now)
      = (none, (ctx.get_element name maxAgeMs now).2) := by
  have hget : ctx.get_element name maxAgeMs now
      = (none, { ctx with
          found_elements := dictErase (normalizeName name) ctx.found_elements }) := by
    unfold ExecutionContext.get_element
    simp [hmem, hstale]
  have herase : dictGet (normalizeName name)
      (dictErase (normalizeName name) ctx.found_elements) = none :=
    dictGet_erase_self_of_nodup _ _ hnd
  refine ⟨by rw [hget], by rw [hget]; exact herase, ?_⟩
  rw [hget]
  unfold ExecutionContext.get_element
  simp only [herase]

/-- Witness for C2: one stale entry stored under a normalized key. -/
theorem c2_stale_eviction_witness :
    (fixtureCtxStale.get_element ("  Save Button ") 100 500).1 = none ∧
    dictGet (normalizeName ("  Save Button "))
      ((fixtureCtxStale.get_element ("  Save Button ") 100 500).2.found_elements) = none :=
  ⟨(c2_stale_eviction fixtureCtxStale ("  Save Button ") fixtureRef 100 500
      (by decide) (by decide) (by decide)).1,
   (c2_stale_eviction fixtureCtxStale ("  Save Button ") fixtureRef 100 500
      (by decide) (by decide) (by decide)).2.1⟩

/-! ### Structural lemmas about the executor -/

theorem execute_step_items (env : Env) (step : Step) (k : Nat)
    (ctx : ExecutionContext) (now : Nat) :
    ((execute_step env step k ctx now).2.2.2).all (stepItemOK k) = true := by
  unfold execute_step
  cases hh : dictGet step.action env.handlers with
  | none => simp only [hh]; simp [stepItemOK]
  | some handler =>
    rcases hv : handler.validate step.parameters with ⟨vok, verr⟩
    cases vok with
    | false => simp only [hh, hv]; simp [stepItemOK]
    | true =>
      cases hex : handler.execute step.parameters
          { ctx with current_step_index := k } with
      | error e =>
        simp only [hh, hv, hex]
        unfold stepExceptBlock
        cases hc : step.completed_at <;> simp [hc, stepItemOK]
      | ok pr =>
        rcases pr with ⟨result, ctx1⟩
        by_cases hs : result.success = false
        · simp only [hh, hv, hex, hs]
          simp [stepExceptBlock, stepItemOK]
        · by_cases hsv : handler.supports_verification = true
          · cases hver : handler.verify step.parameters
                (ExecutionContext.add_step_result ctx1 result) result with
            | ok vr =>
              simp only [hh, hv, hex, hs, hsv, hver]
              by_cases hv2 : vr.verified = true <;>
                simp [stepItemOK, hv2, VERIFY_STEPS, LOG_VERIFICATION_FAILURES]
            | error e2 =>
              simp only [hh, hv, hex, hs, hsv, hver]
              simp [stepItemOK, VERIFY_STEPS]
          · simp only [hh, hv, hex, hs]
            simp [stepItemOK, hsv, VERIFY_STEPS]

theorem execute_step_no_false_none (env : Env) (step : Step) (k : Nat)
    (ctx : ExecutionContext) (now : Nat) :
    (execute_step env step k ctx now).1 ≠ .ret false none := by
  unfold execute_step
  cases hh : dictGet step.action env.handlers with
  | none => simp only [hh]; simp
  | some handler =>
    rcases hv : handler.validate step.parameters with ⟨vok, verr⟩
    cases vok with
    | false => simp only [hh, hv]; simp
    | true =>
      cases hex : handler.execute step.parameters
          { ctx with current_step_index := k } with
      | error e =>
        simp only [hh, hv, hex]
        unfold stepExceptBlock
        cases hc : step.completed_at <;> simp [hc]
      | ok pr =>
        rcases pr with ⟨result, ctx1⟩
        by_cases hs : result.success = false
        · simp only [hh, hv, hex, hs]
          simp [stepExceptBlock]
        · by_cases hsv : handler.supports_verification = true
          · cases hver : handler.verify step.parameters
                (ExecutionContext.add_step_result ctx1 result) result with
            | ok vr =>
              simp only [hh, hv, hex, hs, hsv, hver]
              by_cases hv2 : vr.verified = true <;>
                simp [hv2, VERIFY_STEPS, LOG_VERIFICATION_FAILURES]
            | error e2 =>
              simp only [hh, hv, hex, hs, hsv, hver]
              simp [VERIFY_STEPS]
          · simp only [hh, hv, hex, hs]
            simp [hsv, VERIFY_STEPS]

theorem set_state_no_terminal (m : StateMachine) (s : AgentState) (now : Nat) :
    ∀ e ∈ (m.set_state s now).2.2, isPlanTerminalEv (.ev e) = false := by
  intro e he
  unfold StateMachine.set_state at he
  by_cases h1 : s = m.current_state
  · rw [if_pos h1] at he
    simp at he
  · rw [if_neg h1] at he
    by_cases h2 : s ≠ .ERROR ∧ s ≠ .STOPPED ∧ s ∉ allowed_transitions m.current_state
    · rw [if_pos h2] at he
      simp at he
    · rw [if_neg h2] at he
      simp only [List.mem_singleton] at he
      subst he
      by_cases h3 : s = .IDLE <;> simp [h3, isPlanTerminalEv]

theorem stepItemOK_not_terminal (k : Nat) (t : TraceItem)
    (h : stepItemOK k t = true) : isPlanTerminalEv t = false := by
  cases t with
  | ev e =>
    cases he : e.etype <;> simp_all [stepItemOK, isPlanTerminalEv, he]
  | stepCall kind j a => simp [isPlanTerminalEv]
  | logExec s r => simp [isPlanTerminalEv]
  | setStateCall s b => simp [isPlanTerminalEv]
  | sleepCall ms => simp [isPlanTerminalEv]

theorem stepItemOK_call_idx (k : Nat) (kind : CallKind) (j : Nat) (a : String)
    (h : stepItemOK k (.stepCall kind j a) = true) : j = k := by
  simpa [stepItemOK] using h

theorem run_steps_no_terminal (env : Env) :
    ∀ (rem : List Step) (k : Nat) (ctx : ExecutionContext),
      ((run_steps env k rem ctx).2.2.2).filter isPlanTerminalEv = [] := by
  intro rem
  induction rem with
  | nil => intro k ctx; simp [run_steps]
  | cons step rest ih =>
    intro k ctx
    rw [run_steps]
    by_cases ht : MAX_PLAN_DURATION * 1000 < ctx.elapsed_time_ms (env.timeAt k)
    · rw [if_pos ht]
      simp
    · rw [if_neg ht]
      rcases he : execute_step env step k ctx (env.stepTime k) with ⟨out, step1, ctx1, tr⟩
      have htr : ∀ t ∈ tr, ¬ (isPlanTerminalEv t = true) := by
        intro t ht2
        have hall := execute_step_items env step k ctx (env.stepTime k)
        rw [he] at hall
        have hok := (List.all_eq_true.mp hall) t ht2
        simp [stepItemOK_not_terminal k t hok]
      cases out with
      | raised e =>
        simp only [he]
        exact List.filter_eq_nil_iff.mpr htr
      | ret success err =>
        cases success with
        | true =>
          simp only [he]
          rw [if_pos trivial]
          rw [List.filter_append, List.filter_append]
          rw [List.filter_eq_nil_iff.mpr htr, ih (k + 1) ctx1]
          cases rest <;> simp [isPlanTerminalEv]
        | false =>
          simp only [he]
          exact List.filter_eq_nil_iff.mpr htr

theorem filter_map_ev_no_terminal (evs : List Event)
    (h : ∀ e ∈ evs, isPlanTerminalEv (.ev e) = false) :
    (evs.map TraceItem.ev).filter isPlanTerminalEv = [] := by
  refine List.filter_eq_nil_iff.mpr ?_
  intro t ht
  obtain ⟨e, he, rfl⟩ := List.mem_map.mp ht
  simp [h e he]

theorem dictGet_insert_ne {κ α : Type} [DecidableEq κ] (k k1 : κ) (v : α)
    (h : k1 ≠ k) :
    ∀ l : List (κ × α), dictGet k (dictInsert k1 v l) = dictGet k l := by
  intro l
  induction l with
  | nil => simp [dictGet, dictInsert, h]
  | cons p rest ih =>
    obtain ⟨k2, v2⟩ := p
    by_cases h2 : k2 = k1
    · subst h2
      simp [dictGet, dictInsert, h]
    · by_cases h3 : k2 = k
      · subst h3
        simp [dictGet, dictInsert, h2]
      · simp [dictGet, dictInsert, h2, h3, ih]

theorem rotate_raises (d : LogData)
    (hkey : dictGet ("execution") d = none) :
    rotate_if_needed d = Except.error ("KeyError: execution") := by
  unfold rotate_if_needed pyGetItem
  rw [hkey]
  rfl

theorem log_execution_raises (lg : ExecutionLogger) (eid : String)
    (ctx : ExecutionContext) (success : Bool) (fr : Option String) (now : Nat)
    (hkey : dictGet ("execution") lg.log_data = none) :
    ∃ e, (lg.log_execution eid ctx success fr now).2 = Except.error e := by
  unfold ExecutionLogger.log_execution
  simp only [pyGetItem]
  cases h1 : dictGet ("executions") lg.log_data with
  | none => exact ⟨"KeyError: executions", by simp [h1]⟩
  | some v =>
    cases v with
    | dict d =>
      exact ⟨"AttributeError: dict object has no attribute append", by simp [h1]⟩
    | list records =>
      simp only [h1]
      rw [dictGet_insert_ne ("metadata") ("executions") _ (by decide)]
      cases h2 : dictGet ("metadata") lg.log_data with
      | none => exact ⟨"KeyError: metadata", by simp [h2]⟩
      | some mv =>
        cases mv with
        | list l2 =>
          exact ⟨"AttributeError: list object has no attribute get", by simp [h2]⟩
        | dict meta =>
          simp only [h2]
          cases h3 : bumpCounter (if success then "total_successes" else "total_failures") meta with
          | error e => exact ⟨e, by simp [h3]⟩
          | ok meta2 =>
            have hrot := rotate_raises
              (dictInsert "metadata" (LogVal.dict meta2)
                (dictInsert "executions"
                  (LogVal.list (records ++
                    [{ session_id := lg.session_id, success := success,
                       failure_reason := fr,
                       duration_ms := ctx.elapsed_time_ms now }]))
                  lg.log_data))
              (by
                rw [dictGet_insert_ne ("execution") ("metadata") _ (by decide),
                    dictGet_insert_ne ("execution") ("executions") _ (by decide)]
                exact hkey)
            exact ⟨"KeyError: execution", by simp [h3, hrot]⟩

theorem run_steps_no_setState (env : Env) :
    ∀ (rem : List Step) (k : Nat) (ctx : ExecutionContext) (s : AgentState) (b : Bool),
      TraceItem.setStateCall s b ∉ (run_steps env k rem ctx).2.2.2 := by
  intro rem
  induction rem with
  | nil => intro k ctx s b; simp [run_steps]
  | cons step rest ih =>
    intro k ctx s b
    rw [run_steps]
    by_cases ht : MAX_PLAN_DURATION * 1000 < ctx.elapsed_time_ms (env.timeAt k)
    · rw [if_pos ht]
      simp
    · rw [if_neg ht]
      rcases he : execute_step env step k ctx (env.stepTime k) with ⟨out, step1, ctx1, tr⟩
      have htr : TraceItem.setStateCall s b ∉ tr := by
        intro hmem
        have hall := execute_step_items env step k ctx (env.stepTime k)
        rw [he] at hall
        have hbad := (List.all_eq_true.mp hall) _ hmem
        simp [stepItemOK] at hbad
      cases out with
      | raised e =>
        simp only [he]
        exact htr
      | ret success err =>
        cases success with
        | true =>
          simp only [he]
          rw [if_pos trivial]
          intro hmem
          rcases List.mem_append.mp hmem with h12 | h3
          · rcases List.mem_append.mp h12 with h1 | h2
            · exact htr h1
            · cases hre : rest.isEmpty <;> simp [hre] at h2
          · exact ih (k + 1) ctx1 s b h3
        | false =>
          simp only [he]
          exact htr

theorem finishPlan_aborts (env : Env) (plan : Plan) (okExec : Bool)
    (m1 : StateMachine) (evs1 : List Event) (lg : ExecutionLogger)
    (r : LoopOutcome × List Step × ExecutionContext × List TraceItem)
    (hkey : dictGet ("execution") lg.log_data = none)
    (hloop : r.2.2.2.filter isPlanTerminalEv = [])
    (hevs1 : ∀ e ∈ evs1, isPlanTerminalEv (.ev e) = false)
    (hnosc : ∀ (s : AgentState) (b : Bool), TraceItem.setStateCall s b ∉ r.2.2.2) :
    (∃ e, (finishPlan env plan okExec m1 evs1 lg r).outcome = Except.error e) ∧
    (finishPlan env plan okExec m1 evs1 lg r).trace.filter isPlanTerminalEv = [] ∧
    (∀ b, TraceItem.setStateCall .IDLE b
      ∉ (finishPlan env plan okExec m1 evs1 lg r).trace) ∧
    (∃ s fr, TraceItem.logExec s fr ∈ (finishPlan env plan okExec m1 evs1 lg r).trace) ∧
    (finishPlan env plan okExec m1 evs1 lg r).state.is_executing = true ∧
    (finishPlan env plan okExec m1 evs1 lg r).state.current_context = some r.2.2.1 := by
  obtain ⟨out, steps1, ctx1, trLoop⟩ := r
  have hL : trLoop.filter isPlanTerminalEv = [] := hloop
  have hN : ∀ (s : AgentState) (b : Bool), TraceItem.setStateCall s b ∉ trLoop := hnosc
  cases out with
  | finished =>
    obtain ⟨e, hl⟩ := log_execution_raises lg env.execution_id ctx1 true none env.tEnd hkey
    have hfp : finishPlan env plan okExec m1 evs1 lg (.finished, steps1, ctx1, trLoop)
        = { outcome := .error e,
            plan := { plan with steps := steps1 },
            state := { is_executing := true, current_context := some ctx1,
                       machine := m1,
                       logger := (lg.log_execution env.execution_id ctx1 true none env.tEnd).1 },
            trace := [.setStateCall .EXECUTING okExec] ++ evs1.map .ev ++
                     trLoop ++ [] ++ [.logExec true none] } := by
      unfold finishPlan
      simp only [Option.isNone_none, hl]
    rw [hfp]
    refine ⟨⟨e, rfl⟩, ?_, ?_, ⟨true, none, by simp⟩, rfl, rfl⟩
    · simp only [List.filter_append, hL, filter_map_ev_no_terminal evs1 hevs1]
      simp [isPlanTerminalEv]
    · intro b hmem
      simp at hmem
      exact hN _ _ hmem
  | broke reason =>
    obtain ⟨e, hl⟩ := log_execution_raises lg env.execution_id ctx1 reason.isNone reason
      env.tEnd hkey
    have hfp : finishPlan env plan okExec m1 evs1 lg (.broke reason, steps1, ctx1, trLoop)
        = { outcome := .error e,
            plan := { plan with steps := steps1 },
            state := { is_executing := true, current_context := some ctx1,
                       machine := m1,
                       logger := (lg.log_execution env.execution_id ctx1 reason.isNone reason
                         env.tEnd).1 },
            trace := [.setStateCall .EXECUTING okExec] ++ evs1.map .ev ++
                     trLoop ++ [] ++ [.logExec reason.isNone reason] } := by
      unfold finishPlan
      simp only [hl]
    rw [hfp]
    refine ⟨⟨e, rfl⟩, ?_, ?_, ⟨reason.isNone, reason, by simp⟩, rfl, rfl⟩
    · simp only [List.filter_append, hL, filter_map_ev_no_terminal evs1 hevs1]
      simp [isPlanTerminalEv]
    · intro b hmem
      simp at hmem
      exact hN _ _ hmem
  | raised e2 =>
    obtain ⟨e, hl⟩ := log_execution_raises lg env.execution_id ctx1 false
      (some ("Unexpected exception: " ++ e2)) env.tEnd hkey
    have hfp : finishPlan env plan okExec m1 evs1 lg (.raised e2, steps1, ctx1, trLoop)
        = { outcome := .error e,
            plan := { plan with steps := steps1 },
            state := { is_executing := true, current_context := some ctx1,
                       machine := m1,
                       logger := (lg.log_execution env.execution_id ctx1 false
                         (some ("Unexpected exception: " ++ e2)) env.tEnd).1 },
            trace := [.setStateCall .EXECUTING okExec] ++ evs1.map .ev ++
                     trLoop ++
                     [.ev { etype := .ERROR, source := "Executor",
                            data := [("error", .s e2)] }] ++
                     [.logExec false (some ("Unexpected exception: " ++ e2))] } := by
      unfold finishPlan
      simp only [Option.isNone_some, hl]
    rw [hfp]
    refine ⟨⟨e, rfl⟩, ?_, ?_,
      ⟨false, some ("Unexpected exception: " ++ e2), by simp⟩, rfl, rfl⟩
    · simp only [List.filter_append, hL, filter_map_ev_no_terminal evs1 hevs1]
      simp [isPlanTerminalEv]
    · intro b hmem
      simp at hmem
      exact hN _ _ hmem

theorem finishPlan_stepCall_mem (env : Env) (plan : Plan) (okExec : Bool)
    (m1 : StateMachine) (evs1 : List Event) (lg : ExecutionLogger)
    (r : LoopOutcome × List Step × ExecutionContext × List TraceItem)
    (kind : CallKind) (j : Nat) (a : String)
    (h : TraceItem.stepCall kind j a ∈ (finishPlan env plan okExec m1 evs1 lg r).trace) :
    TraceItem.stepCall kind j a ∈ r.2.2.2 := by
  obtain ⟨out, steps1, ctx1, trLoop⟩ := r
  cases out with
  | finished =>
    cases hl : (lg.log_execution env.execution_id ctx1 true none env.tEnd).2 with
    | error e =>
      unfold finishPlan at h
      simp only [Option.isNone_none, hl] at h
      simp at h
      exact h
    | ok eid =>
      unfold finishPlan at h
      simp only [Option.isNone_none, hl] at h
      simp at h
      exact h
  | broke reason =>
    cases reason with
    | none =>
      cases hl : (lg.log_execution env.execution_id ctx1 true none env.tEnd).2 with
      | error e =>
        unfold finishPlan at h
        simp only [Option.isNone_none, hl] at h
        simp at h
        exact h
      | ok eid =>
        unfold finishPlan at h
        simp only [Option.isNone_none, hl] at h
        simp at h
        exact h
    | some reason1 =>
      cases hl : (lg.log_execution env.execution_id ctx1 false (some reason1) env.tEnd).2 with
      | error e =>
        unfold finishPlan at h
        simp only [Option.isNone_some, hl] at h
        simp at h
        exact h
      | ok eid =>
        unfold finishPlan at h
        simp only [Option.isNone_some, hl] at h
        simp at h
        exact h
  | raised e2 =>
    cases hl : (lg.log_execution env.execution_id ctx1 false
        (some ("Unexpected exception: " ++ e2)) env.tEnd).2 with
    | error e =>
      unfold finishPlan at h
      simp only [Option.isNone_some, hl] at h
      simp at h
      exact h
    | ok eid =>
      unfold finishPlan at h
      simp only [Option.isNone_some, hl] at h
      simp at h
      exact h

theorem execute_step_failing (env : Env) (k : Nat) (si : Step)
    (ctx : ExecutionContext) (now : Nat) (hb : HandlerBehavior)
    (hh : dictGet si.action env.handlers = some hb)
    (hexec : ∀ c : ExecutionContext, ∃ res c2,
        hb.execute si.parameters c = Except.ok (res, c2) ∧ res.success = false) :
    ∃ msg, (execute_step env si k ctx now).1 = .ret false (some msg) := by
  unfold execute_step
  simp only [hh]
  rcases hv : hb.validate si.parameters with ⟨vok, verr⟩
  cases vok with
  | false =>
    simp only [hv]
    exact ⟨_, rfl⟩
  | true =>
    obtain ⟨res, c2, hex, hsf⟩ := hexec { ctx with current_step_index := k }
    simp only [hv, hex, hsf]
    exact ⟨_, rfl⟩

theorem run_steps_reaches_failing (env : Env) (i : Nat) (si : Step)
    (hb : HandlerBehavior)
    (hh : dictGet si.action env.handlers = some hb)
    (hexec : ∀ c : ExecutionContext, ∃ res c2,
        hb.execute si.parameters c = Except.ok (res, c2) ∧ res.success = false) :
    ∀ (rem : List Step) (k : Nat) (ctx : ExecutionContext), k ≤ i →
      rem.get? (i - k) = some si →
      ((∃ reason, (run_steps env k rem ctx).1 = .broke (some reason)) ∨
       (∃ e, (run_steps env k rem ctx).1 = .raised e)) ∧
      (∀ t ∈ (run_steps env k rem ctx).2.2.2,
        ∀ kind j a, t = TraceItem.stepCall kind j a → j ≤ i) := by
  intro rem
  induction rem with
  | nil =>
    intro k ctx hk hget
    simp at hget
  | cons step rest ih =>
    intro k ctx hk hget
    rw [run_steps]
    by_cases htime : MAX_PLAN_DURATION * 1000 < ctx.elapsed_time_ms (env.timeAt k)
    · rw [if_pos htime]
      exact ⟨.inl ⟨_, rfl⟩, by simp⟩
    · rw [if_neg htime]
      rcases he : execute_step env step k ctx (env.stepTime k) with ⟨out, step1, ctx1, tr⟩
      have htr : ∀ t ∈ tr, ∀ kind j a, t = TraceItem.stepCall kind j a → j ≤ i := by
        intro t ht kind j a hEq
        subst hEq
        have hall := execute_step_items env step k ctx (env.stepTime k)
        rw [he] at hall
        have hok := (List.all_eq_true.mp hall) _ ht
        have hj := stepItemOK_call_idx k kind j a hok
        omega
      cases out with
      | raised e =>
        simp only [he]
        exact ⟨.inr ⟨e, rfl⟩, htr⟩
      | ret success err =>
        cases success with
        | false =>
          have hne := execute_step_no_false_none env step k ctx (env.stepTime k)
          rw [he] at hne
          simp only [he]
          cases err with
          | none => exact absurd rfl hne
          | some msg => exact ⟨.inl ⟨msg, rfl⟩, htr⟩
        | true =>
          by_cases hki : k = i
          · subst hki
            rw [Nat.sub_self] at hget
            have hstep : step = si := by simpa using hget
            subst hstep
            obtain ⟨msg, hmsg⟩ :=
              execute_step_failing env k step ctx (env.stepTime k) hb hh hexec
            rw [he] at hmsg
            simp at hmsg
          · have hk2 : k + 1 ≤ i := by omega
            have hget2 : rest.get? (i - (k + 1)) = some si := by
              have hik : i - k = (i - (k + 1)) + 1 := by omega
              rw [hik] at hget
              simpa using hget
            have hr := ih (k + 1) ctx1 hk2 hget2
            simp only [he]
            rw [if_pos trivial]
            refine ⟨hr.1, ?_⟩
            intro t ht kind j a hEq
            rcases List.mem_append.mp ht with h12 | h3
            · rcases List.mem_append.mp h12 with h1 | h2
              · exact htr t h1 kind j a hEq
              · subst hEq
                cases hre : rest.isEmpty <;> simp [hre] at h2
            · exact hr.2 t h3 kind j a hEq

theorem run_steps_timeout (env : Env) (i : Nat)
    (htime : MAX_PLAN_DURATION * 1000 < env.timeAt i - env.t0) :
    ∀ (rem : List Step) (k : Nat) (ctx : ExecutionContext),
      k ≤ i → i - k < rem.length → ctx.start_time = env.t0 →
      (∀ j, j < i → env.timeAt j - env.t0 ≤ MAX_PLAN_DURATION * 1000) →
      (∀ j, k ≤ j → j < i → ∀ sj : Step, rem.get? (j - k) = some sj →
        ∀ c : ExecutionContext, c.start_time = env.t0 →
          (execute_step env sj j c (env.stepTime j)).1 = .ret true none ∧
          (execute_step env sj j c (env.stepTime j)).2.2.1.start_time = env.t0) →
      (run_steps env k rem ctx).1 = .broke (some ("Plan Execution timeout")) ∧
      (∀ t ∈ (run_steps env k rem ctx).2.2.2,
        ∀ kind j a, t = TraceItem.stepCall kind j a → j < i) := by
  intro rem
  induction rem with
  | nil =>
    intro k ctx hk hlen _ _ _
    simp at hlen
  | cons step rest ih =>
    intro k ctx hk hlen hstart hpre hok
    rw [run_steps]
    by_cases hki : k = i
    · subst hki
      have hcond : MAX_PLAN_DURATION * 1000 < ctx.elapsed_time_ms (env.timeAt k) := by
        unfold ExecutionContext.elapsed_time_ms
        rw [hstart]
        exact htime
      rw [if_pos hcond]
      exact ⟨rfl, by simp⟩
    · have hklt : k < i := lt_of_le_of_ne hk hki
      have hcond : ¬ MAX_PLAN_DURATION * 1000 < ctx.elapsed_time_ms (env.timeAt k) := by
        unfold ExecutionContext.elapsed_time_ms
        rw [hstart]
        exact not_lt.mpr (hpre k hklt)
      rw [if_neg hcond]
      have hstep0 := hok k (le_refl k) hklt step (by simp) ctx hstart
      rcases he : execute_step env step k ctx (env.stepTime k) with ⟨out, step1, ctx1, tr⟩
      rw [he] at hstep0
      have hout : out = .ret true none := hstep0.1
      have hctx1 : ctx1.start_time = env.t0 := hstep0.2
      subst hout
      have htr : ∀ t ∈ tr, ∀ kind j a, t = TraceItem.stepCall kind j a → j < i := by
        intro t ht kind j a hEq
        subst hEq
        have hall := execute_step_items env step k ctx (env.stepTime k)
        rw [he] at hall
        have hokt := (List.all_eq_true.mp hall) _ ht
        have hj := stepItemOK_call_idx k kind j a hokt
        omega
      have hr := ih (k + 1) ctx1 hklt (by simp at hlen; omega) hctx1 hpre ?hshift
      case hshift =>
        intro j hj1 hj2 sj hsj c hc
        have hik : j - k = (j - (k + 1)) + 1 := by omega
        exact hok j (by omega) hj2 sj (by rw [hik]; simpa using hsj) c hc
      simp only [he]
      rw [if_pos trivial]
      refine ⟨hr.1, ?_⟩
      intro t ht kind j a hEq
      rcases List.mem_append.mp ht with h12 | h3
      · rcases List.mem_append.mp h12 with h1 | h2
        · exact htr t h1 kind j a hEq
        · subst hEq
          cases hre : rest.isEmpty <;> simp [hre] at h2
      · exact hr.2 t h3 kind j a hEq

/-! ### Claims about the executor, step level -/

/-- Claim C1 (code bug): when a handler raises from `execute`, the
except-block of `_execute_step` subtracts the still-None `completed_at` at
line 320 before marking the step failed, so a TypeError propagates out of
`_execute_step`, leaving the step RUNNING with no error message —
contradicting the claim that the step ends FAILED with a captured message.
`execute_plan` catches it at line 145 and emits an ERROR event, but its
finally block then dies at the logger call, so the whole call raises
KeyError instead of returning. -/
theorem c1_handler_exception_propagates :
    (execute_step fixtureEnv (stepFor ("boom")) 0
        (fixtureCtx (planFor [stepFor ("boom")])) 0).1
      = .raised NONE_MINUS_DATETIME_MSG ∧
    (execute_step fixtureEnv (stepFor ("boom")) 0
        (fixtureCtx (planFor [stepFor ("boom")])) 0).2.1.status = .RUNNING ∧
    (execute_step fixtureEnv (stepFor ("boom")) 0
        (fixtureCtx (planFor [stepFor ("boom")])) 0).2.1.error = none ∧
    (execute_plan fixtureEnv (planFor [stepFor ("boom")]) fixtureIntent
        fixtureExecState).outcome = Except.error ("KeyError: execution") ∧
    (TraceItem.ev { etype := .ERROR, source := "Executor",
                    data := [("error", .s NONE_MINUS_DATETIME_MSG)] })
      ∈ (execute_plan fixtureEnv (planFor [stepFor ("boom")]) fixtureIntent
          fixtureExecState).trace := by
  refine ⟨rfl, rfl, rfl, rfl, ?_⟩
  decide

/-- Claim C5 (code bug): the claim says execute_plan always persists the
record, emits exactly one of PLAN_COMPLETED/PLAN_FAILED, asks the machine to
return to IDLE, and ends with is_executing false and the context cleared.
In the program the finally block dies at its very first statement:
`log_execution` appends the record in memory but then raises KeyError at
logger.py line 74 (`_log_data[execution]`; the structure only ever has
`executions`), so — for every log structure the in-src logger creates, on
every path — no terminal event is emitted, set_state(IDLE) is never
requested, is_executing stays true, the context stays set, and execute_plan
raises instead of returning. -/
theorem c5_finally_dies_at_logger (env : Env) (plan : Plan) (intent : Intent)
    (es : ExecutorState)
    (hkey : dictGet ("execution") es.logger.log_data = none) :
    (∃ e, (execute_plan env plan intent es).outcome = Except.error e) ∧
    (execute_plan env plan intent es).trace.filter isPlanTerminalEv = [] ∧
    (∀ b, TraceItem.setStateCall .IDLE b ∉ (execute_plan env plan intent es).trace) ∧
    (∃ s fr, TraceItem.logExec s fr ∈ (execute_plan env plan intent es).trace) ∧
    (execute_plan env plan intent es).state.is_executing = true ∧
    (∃ c, (execute_plan env plan intent es).state.current_context = some c) := by
  unfold execute_plan
  have h := finishPlan_aborts env plan
    (es.machine.set_state .EXECUTING env.t0).1
    (es.machine.set_state .EXECUTING env.t0).2.1
    (es.machine.set_state .EXECUTING env.t0).2.2
    es.logger
    (run_steps env 0 plan.steps
      { plan := plan, intent := intent, current_window := none, found_elements := [],
        step_results := [], start_time := env.t0, current_step_index := 0, vars := [] })
    hkey
    (run_steps_no_terminal env plan.steps 0 _)
    (set_state_no_terminal es.machine .EXECUTING env.t0)
    (fun s b => run_steps_no_setState env plan.steps 0 _ s b)
  exact ⟨h.1, h.2.1, h.2.2.1, h.2.2.2.1, h.2.2.2.2.1, ⟨_, h.2.2.2.2.2⟩⟩

/-- Witness for C5: a one-step plan under the fixture state, whose logger
holds the freshly created log structure. -/
theorem c5_finally_dies_at_logger_witness :
    (∃ e, (execute_plan fixtureEnv (planFor [stepFor ("ok")]) fixtureIntent
        fixtureExecState).outcome = Except.error e) ∧
    (execute_plan fixtureEnv (planFor [stepFor ("ok")]) fixtureIntent
        fixtureExecState).trace.filter isPlanTerminalEv = [] ∧
    (∀ b, TraceItem.setStateCall .IDLE b
      ∉ (execute_plan fixtureEnv (planFor [stepFor ("ok")]) fixtureIntent
          fixtureExecState).trace) ∧
    (∃ s fr, TraceItem.logExec s fr ∈ (execute_plan fixtureEnv
        (planFor [stepFor ("ok")]) fixtureIntent fixtureExecState).trace) ∧
    (execute_plan fixtureEnv (planFor [stepFor ("ok")]) fixtureIntent
        fixtureExecState).state.is_executing = true ∧
    (∃ c, (execute_plan fixtureEnv (planFor [stepFor ("ok")]) fixtureIntent
        fixtureExecState).state.current_context = some c) :=
  c5_finally_dies_at_logger fixtureEnv (planFor [stepFor ("ok")]) fixtureIntent
    fixtureExecState (by decide)

/-- Claim C4 (code bug): every failure branch of `execute_single_action`
builds `ActionResult(success=False, error=...)`, but the dataclass declares
no defaults for `data` and `method_used`, so the constructor raises a
TypeError instead of returning a failed result: for a missing handler, for a
failed validation, and for the branch converting a handler exception. -/
theorem c4_single_action_constructor_raises :
    execute_single_action fixtureEnv ("open_portal") []
      = Except.error TYPEERROR_ACTIONRESULT ∧
    execute_single_action fixtureEnv ("picky") []
      = Except.error TYPEERROR_ACTIONRESULT ∧
    execute_single_action fixtureEnv ("boom") []
      = Except.error TYPEERROR_ACTIONRESULT ∧
    execute_single_action fixtureEnv ("ok") []
      = Except.ok { success := true, data := [], error := none,
                    method_used := "native" } :=
  ⟨rfl, rfl, rfl, rfl⟩

/-- Claim C3 (code bug): the fail-fast half of the claim holds — when the
registered handler for step `i` returns success=False for every context, no
step with an index above `i` is ever started, looked up, validated, or
executed — but the claimed conclusion that execute_plan then returns false
does not: for every log structure the in-src logger creates, the finally
block raises KeyError at the logger call (logger.py line 74) before any
value is returned, so execute_plan raises and never returns a boolean. -/
theorem c3_fail_fast (env : Env) (plan : Plan) (intent : Intent)
    (es : ExecutorState) (i : Nat) (si : Step) (hb : HandlerBehavior)
    (hstep : plan.steps.get? i = some si)
    (hh : dictGet si.action env.handlers = some hb)
    (hexec : ∀ c : ExecutionContext, ∃ res c2,
        hb.execute si.parameters c = Except.ok (res, c2) ∧ res.success = false)
    (hkey : dictGet ("execution") es.logger.log_data = none) :
    (∀ t ∈ (execute_plan env plan intent es).trace,
      ∀ kind j a, t = TraceItem.stepCall kind j a → j ≤ i) ∧
    (∃ e, (execute_plan env plan intent es).outcome = Except.error e) ∧
    (∀ b, (execute_plan env plan intent es).outcome ≠ Except.ok b) := by
  have hrun := run_steps_reaches_failing env i si hb hh hexec plan.steps 0
      { plan := plan, intent := intent, current_window := none, found_elements := [],
        step_results := [], start_time := env.t0, current_step_index := 0, vars := [] }
      (Nat.zero_le i) (by simpa using hstep)
  have habort := finishPlan_aborts env plan
      (es.machine.set_state .EXECUTING env.t0).1
      (es.machine.set_state .EXECUTING env.t0).2.1
      (es.machine.set_state .EXECUTING env.t0).2.2
      es.logger
      (run_steps env 0 plan.steps
        { plan := plan, intent := intent, current_window := none, found_elements := [],
          step_results := [], start_time := env.t0, current_step_index := 0, vars := [] })
      hkey
      (run_steps_no_terminal env plan.steps 0 _)
      (set_state_no_terminal es.machine .EXECUTING env.t0)
      (fun s b => run_steps_no_setState env plan.steps 0 _ s b)
  refine ⟨?_, ?_, ?_⟩
  · intro t ht kind j a hEq
    subst hEq
    unfold execute_plan at ht
    have hmem := finishPlan_stepCall_mem _ _ _ _ _ _ _ kind j a ht
    exact hrun.2 _ hmem kind j a rfl
  · unfold execute_plan
    exact habort.1
  · intro b hok
    unfold execute_plan at hok
    obtain ⟨e, he⟩ := habort.1
    rw [he] at hok
    exact Except.noConfusion hok

/-- Witness for C3: a two-step plan whose first handler reports failure; no
trace entry mentions step 1 and the call raises instead of returning. -/
theorem c3_fail_fast_witness :
    (∀ t ∈ (execute_plan fixtureEnv (planFor [stepFor ("fail_step"), stepFor ("ok")])
        fixtureIntent fixtureExecState).trace,
      ∀ kind j a, t = TraceItem.stepCall kind j a → j ≤ 0) ∧
    (∃ e, (execute_plan fixtureEnv (planFor [stepFor ("fail_step"), stepFor ("ok")])
        fixtureIntent fixtureExecState).outcome = Except.error e) ∧
    (∀ b, (execute_plan fixtureEnv (planFor [stepFor ("fail_step"), stepFor ("ok")])
        fixtureIntent fixtureExecState).outcome ≠ Except.ok b) :=
  c3_fail_fast fixtureEnv (planFor [stepFor ("fail_step"), stepFor ("ok")])
    fixtureIntent fixtureExecState 0 (stepFor ("fail_step")) handlerFail
    rfl rfl (fun c => ⟨_, c, rfl, rfl⟩) (by decide)

/-- Claim C7 (code bug): the abort half of the claim holds — if every step
before `i` starts within the budget and succeeds, and the wall clock exceeds
MAX_PLAN_DURATION at the check before step `i`, the loop stops with failure
reason Plan Execution timeout and step `i` and all later steps are never
started, looked up, validated, or executed — but the claimed conclusions
that execute_plan returns false and that the emitted PLAN_FAILED event
carries the timeout reason do not hold: for every log structure the in-src
logger creates, the finally block raises KeyError at the logger call before
the PLAN_FAILED emit, so no terminal event is ever emitted and no boolean is
returned. -/
theorem c7_timeout_aborts (env : Env) (plan : Plan) (intent : Intent)
    (es : ExecutorState) (i : Nat)
    (hi : i < plan.steps.length)
    (hpre : ∀ j, j < i → env.timeAt j - env.t0 ≤ MAX_PLAN_DURATION * 1000)
    (hok : ∀ j, j < i → ∀ sj : Step, plan.steps.get? j = some sj →
        ∀ c : ExecutionContext, c.start_time = env.t0 →
          (execute_step env sj j c (env.stepTime j)).1 = .ret true none ∧
          (execute_step env sj j c (env.stepTime j)).2.2.1.start_time = env.t0)
    (htime : MAX_PLAN_DURATION * 1000 < env.timeAt i - env.t0)
    (hkey : dictGet ("execution") es.logger.log_data = none) :
    (run_steps env 0 plan.steps
      { plan := plan, intent := intent, current_window := none, found_elements := [],
        step_results := [], start_time := env.t0, current_step_index := 0,
        vars := [] }).1 = .broke (some ("Plan Execution timeout")) ∧
    (∀ t ∈ (execute_plan env plan intent es).trace,
      ∀ kind j a, t = TraceItem.stepCall kind j a → j < i) ∧
    (execute_plan env plan intent es).trace.filter isPlanTerminalEv = [] ∧
    (∃ e, (execute_plan env plan intent es).outcome = Except.error e) := by
  have hrun := run_steps_timeout env i htime plan.steps 0
      { plan := plan, intent := intent, current_window := none, found_elements := [],
        step_results := [], start_time := env.t0, current_step_index := 0, vars := [] }
      (Nat.zero_le i) (by simpa using hi) rfl hpre
      (fun j hj0 hji sj hsj c hc => hok j hji sj (by simpa using hsj) c hc)
  have habort := finishPlan_aborts env plan
      (es.machine.set_state .EXECUTING env.t0).1
      (es.machine.set_state .EXECUTING env.t0).2.1
      (es.machine.set_state .EXECUTING env.t0).2.2
      es.logger
      (run_steps env 0 plan.steps
        { plan := plan, intent := intent, current_window := none, found_elements := [],
          step_results := [], start_time := env.t0, current_step_index := 0, vars := [] })
      hkey
      (run_steps_no_terminal env plan.steps 0 _)
      (set_state_no_terminal es.machine .EXECUTING env.t0)
      (fun s b => run_steps_no_setState env plan.steps 0 _ s b)
  refine ⟨hrun.1, ?_, ?_, ?_⟩
  · intro t ht kind j a hEq
    subst hEq
    unfold execute_plan at ht
    have hmem := finishPlan_stepCall_mem _ _ _ _ _ _ _ kind j a ht
    exact hrun.2 _ hmem kind j a rfl
  · unfold execute_plan
    exact habort.2.1
  · unfold execute_plan
    exact habort.1

/-- Witness for C7: step 0 succeeds in time, the clock jumps past the budget
before step 1; the loop reports the timeout, step 1 never appears in the
trace, no PLAN_FAILED exists, and the call raises. -/
theorem c7_timeout_aborts_witness :
    (run_steps fixtureEnvLate 0 (planFor [stepFor ("ok"), stepFor ("ok")]).steps
      { plan := planFor [stepFor ("ok"), stepFor ("ok")], intent := fixtureIntent,
        current_window := none, found_elements := [], step_results := [],
        start_time := fixtureEnvLate.t0, current_step_index := 0,
        vars := [] }).1 = .broke (some ("Plan Execution timeout")) ∧
    (∀ t ∈ (execute_plan fixtureEnvLate (planFor [stepFor ("ok"), stepFor ("ok")])
        fixtureIntent fixtureExecState).trace,
      ∀ kind j a, t = TraceItem.stepCall kind j a → j < 1) ∧
    (execute_plan fixtureEnvLate (planFor [stepFor ("ok"), stepFor ("ok")])
        fixtureIntent fixtureExecState).trace.filter isPlanTerminalEv = [] ∧
    (∃ e, (execute_plan fixtureEnvLate (planFor [stepFor ("ok"), stepFor ("ok")])
        fixtureIntent fixtureExecState).outcome = Except.error e) :=
  c7_timeout_aborts fixtureEnvLate (planFor [stepFor ("ok"), stepFor ("ok")])
    fixtureIntent fixtureExecState 1
    (by decide)
    (by
      intro j hj
      have hj0 : j = 0 := by omega
      subst hj0
      decide)
    (by
      intro j hj sj hsj c hc
      have hj0 : j = 0 := by omega
      subst hj0
      have hsj0 : sj = stepFor ("ok") := by
        simp [planFor] at hsj
        exact hsj.symm
      subst hsj0
      exact ⟨rfl, hc⟩)
    (by decide)
    (by decide)

end Mei
